import Mathlib

/-
Verification of the proc-macro client subsystem of the language server
(crates/cairo-lang-language-server/src/lang/proc_macros).

Shallow embedding: data structures and functions are translated from the Rust
source files
  - lang/proc_macros/client/mod.rs        (ProcMacroClient, fetch_defined_macros,
                                           send_request_tracked)
  - lang/proc_macros/client/controller.rs (ProcMacroClientController, status mailbox,
                                           update_state, retries)
  - lang/proc_macros/idle_job.rs          (HashMapChangeTracker,
                                           apply_proc_macro_server_responses)
  - lang/proc_macros/debouncer.rs         (Debouncer)
  - lang/proc_macros/plugins/mod.rs       (proc_macro_plugin_suite)

Hash maps (rustc_hash::FxHashMap, OrderedHashMap) are modelled as association
lists with unique keys; serde payloads are modelled by an inductive carrying the
deserialization outcome the control flow distinguishes.
-/

namespace CairoLS

/-- Stand-ins for the serde parameter and result payload types
(ExpandAttributeParams, ExpandDeriveParams, ExpandInlineMacroParams,
ProcMacroResult from proc_macro_server_api). Their internal structure is never
inspected by the code under verification; only equality of values matters, so
they are modelled as Nat tags. -/
abbrev ExpandAttributeParams := Nat

abbrev ExpandDeriveParams := Nat

abbrev ExpandInlineMacroParams := Nat

abbrev ProcMacroResult := Nat

/-- Manifest returned by the DefinedMacros bootstrap method
(proc_macro_server_api::methods::defined_macros::DefinedMacrosResponse):
lists of attribute names, derive names, executable-attribute names and
inline-macro names. -/
structure DefinedMacrosResponse where
  attributes : List String
  derives : List String
  executables : List String
  inline_names : List String
deriving DecidableEq, Repr

/-- Model of a serde_json::Value payload, abstracted to the outcomes the control
flow distinguishes: deserializes to a ProcMacroResult, deserializes to a
DefinedMacrosResponse, or is malformed (any deserialization fails). -/
inductive JsonValue where
  | procMacroResult (r : ProcMacroResult)
  | definedMacros (d : DefinedMacrosResponse)
  | malformed
deriving DecidableEq, Repr

/-- RpcResponse from proc_macro_server_api: a response id plus payload. -/
structure RpcResponse where
  id : Nat
  value : JsonValue
deriving DecidableEq, Repr

/-- RequestParams (client/mod.rs 21-26): the semantic kind of an in-flight
request, keyed by request id in the correlation table. -/
inductive RequestParams where
  | Attribute (params : ExpandAttributeParams)
  | Derive (params : ExpandDeriveParams)
  | Inline (params : ExpandInlineMacroParams)
deriving DecidableEq, Repr

/-- Association-list model of a hash map (FxHashMap / OrderedHashMap): keys
unique, insert overwrites in place, lookup by key. -/
def mapGet {K V : Type} [DecidableEq K] (m : List (K × V)) (k : K) : Option V :=
  match m with
  | [] => none
  | (k', v') :: rest => if k' = k then some v' else mapGet rest k

/-- Insert for the association-list map model: overwrites the binding in place
if the key is present, appends otherwise (HashMap::insert). -/
def mapInsert {K V : Type} [DecidableEq K] (m : List (K × V)) (k : K) (v : V) :
    List (K × V) :=
  match m with
  | [] => [(k, v)]
  | (k', v') :: rest => if k' = k then (k, v) :: rest else (k', v') :: mapInsert rest k v

/-- Remove for the association-list map model: returns the removed value (if
any) together with the map without that binding (HashMap::remove). -/
def mapRemove {K V : Type} [DecidableEq K] (m : List (K × V)) (k : K) :
    Option V × List (K × V) :=
  match m with
  | [] => (none, [])
  | (k', v') :: rest =>
    if k' = k then (some v', rest)
    else
      let r := mapRemove rest k
      (r.1, (k', v') :: r.2)

/-- ProcMacroClient (client/mod.rs 28-34), restricted to the state the drain
and bootstrap paths touch: the correlation table requests_params mapping
request id to RequestParams, and the responses currently buffered on the
inbound channel (connection.responder; connection.rs is not part of the
sources, its try_iter drain of buffered items is modelled by this list,
consumed in arrival order). -/
structure ProcMacroClient where
  requests_params : List (Nat × RequestParams)
  buffered_responses : List RpcResponse
deriving DecidableEq, Repr

/-- ClientStatus (client/controller.rs 153-160). Ready carries the client
(the Arc handle), modelled by the client state itself. -/
inductive ClientStatus where
  | Disabled
  | Initializing
  | Ready (client : ProcMacroClient)
  | InitializingFailed
deriving DecidableEq, Repr

/-- ClientStatusChange (client/controller.rs 174-181): the event carried
through the status mailbox. -/
inductive ClientStatusChange where
  | Ready (defined : DefinedMacrosResponse) (client : ProcMacroClient)
  | Failed
  | FatalFailed
deriving DecidableEq, Repr

/-- ProcMacroClientStatusChange (client/controller.rs 22-23): a single-slot,
overwrite-on-write, take-on-read mailbox, modelled by its Option content. -/
abbrev ProcMacroClientStatusChange := Option ClientStatusChange

/-- ProcMacroClientStatusChange::update (controller.rs 26-28): overwrites the
slot, silently discarding any unread previous value. -/
def ProcMacroClientStatusChange.update (_ : ProcMacroClientStatusChange)
    (change : ClientStatusChange) : ProcMacroClientStatusChange :=
  some change

/-- ProcMacroClientStatusChange::changed (controller.rs 30-32): takes the
content, leaving the slot empty; returns (taken value, slot afterwards). -/
def ProcMacroClientStatusChange.changed (m : ProcMacroClientStatusChange) :
    Option ClientStatusChange × ProcMacroClientStatusChange :=
  (m, none)

/-- Environment of one fetch_defined_macros call: whether the outbound send
succeeds, and what (if anything) the blocking recv on the response channel
returns (none models a closed or erroring channel). -/
structure BootstrapEnv where
  sendOk : Bool
  recvd : Option RpcResponse
deriving DecidableEq, Repr

/-- Deserialization of a DefinedMacrosResponse payload
(serde_json::from_value at client/mod.rs 94). -/
def parseDefinedMacros (v : JsonValue) : Option DefinedMacrosResponse :=
  match v with
  | .definedMacros d => some d
  | _ => none

/-- fetch_defined_macros (client/mod.rs 69-96). nextId is the state of the
IdGenerator at the call. Modelled from the spec: id_generator.rs is not among
the sources; per the spec the generator yields a strictly increasing sequence
of unique ids, and per the functions own bail messages ("zero counting",
"should be 0") the first id issued is 0. The function: sends the request
obtaining a fresh id (send failure is an error); bails if id == 0; performs the
blocking recv (failure is an error); bails if the response id differs from the
sent id; finally deserializes the payload. -/
def fetch_defined_macros (nextId : Nat) (env : BootstrapEnv) :
    Except String DefinedMacrosResponse :=
  if !env.sendOk then
    .error "sending request failed"
  else
    let id := nextId
    if id == 0 then
      .error "fetching defined macros should be first sended request"
    else
      match env.recvd with
      | none => .error "failed to read response for defined macros request"
      | some response =>
        if response.id != id then
          .error "fetching defined macros should be waited before any other request is send"
        else
          match parseDefinedMacros response.value with
          | some d => .ok d
          | none => .error "failed to deserialize response for defined macros request"

/-- Debouncer (debouncer.rs 3-6). Timestamps are modelled as integers (an
instant on the SystemTime line); time is the minimum interval. -/
structure Debouncer where
  time : Int
  last_run : Int
deriving DecidableEq, Repr

/-- Debouncer::new (debouncer.rs 9-15): constructed at instant now with
last_run already one interval in the past, so the first run_debounced call
executes. -/
def Debouncer.new (time now : Int) : Debouncer :=
  { time := time, last_run := now - time }

/-- Debouncer::run_debounced (debouncer.rs 17-23) at instant now: executes the
job (returning true) iff the elapsed time now - last_run is at least the
interval, updating last_run to now in that case; otherwise a no-op. The
last_run.elapsed().unwrap() requires a monotone clock (now not before
last_run); theorems about call sequences carry that as a hypothesis. -/
def Debouncer.run_debounced (d : Debouncer) (now : Int) : Debouncer × Bool :=
  if d.time ≤ now - d.last_run then ({ time := d.time, last_run := now }, true)
  else (d, false)

/-- Folds run_debounced over a list of call instants, returning the final
debouncer state and, per call, whether the job executed. -/
def Debouncer.runCalls (d : Debouncer) (times : List Int) : Debouncer × List Bool :=
  match times with
  | [] => (d, [])
  | t :: rest =>
    let (d', b) := d.run_debounced t
    let (d'', bs) := d'.runCalls rest
    (d'', b :: bs)

/-- AnalysisDatabase, restricted to the inputs this subsystem reads and writes
(the incremental-database boundary: ProcMacroCacheGroup get/set operations for
the client status, the three resolution maps, and the plugin set; cache_group.rs
is not among the sources, its accessors are plain get/set of these inputs per
the spec). Plugin entries are introduced below. -/
structure ProcMacroPlugin where
  defined_attributes : List String
  defined_derives : List String
  defined_executable_attributes : List String
deriving DecidableEq, Repr

/-- An entry of the databases macro-plugin vector: either a statically
registered plugin (opaque tag) or a ProcMacroPlugin instance
(plugins/mod.rs 43-47). -/
inductive MacroPluginEntry where
  | static (tag : Nat)
  | proc (p : ProcMacroPlugin)
deriving DecidableEq, Repr

/-- An entry of the databases inline-macro-plugin map: a statically registered
inline plugin (opaque tag) or an InlineProcMacroPlugin instance
(plugins/mod.rs 78-79); instanceTag distinguishes the Arc::new allocation made
by each proc_macro_plugin_suite call. -/
inductive InlinePluginEntry where
  | static (tag : Nat)
  | proc (instanceTag : Nat)
deriving DecidableEq, Repr

/-- The incremental analysis database, restricted to this subsystems inputs. -/
structure AnalysisDatabase where
  proc_macro_client_status : ClientStatus
  attribute_macro_resolution : List (ExpandAttributeParams × ProcMacroResult)
  derive_macro_resolution : List (ExpandDeriveParams × ProcMacroResult)
  inline_macro_resolution : List (ExpandInlineMacroParams × ProcMacroResult)
  macro_plugins : List MacroPluginEntry
  inline_macro_plugins : List (String × InlinePluginEntry)
deriving DecidableEq, Repr

/-- HashMapChangeTracker (idle_job.rs 13-16): a map plus a changed flag. -/
structure HashMapChangeTracker (K V : Type) where
  inner : List (K × V)
  changed : Bool
deriving DecidableEq, Repr

/-- HashMapChangeTracker::new (idle_job.rs 19-21): wraps a map, changed false. -/
def HashMapChangeTracker.new {K V : Type} (inner : List (K × V)) :
    HashMapChangeTracker K V :=
  { inner := inner, changed := false }

/-- HashMapChangeTracker::insert (idle_job.rs 24-30): inserts into the
underlying map and marks it as changed, unconditionally. -/
def HashMapChangeTracker.insert {K V : Type} [DecidableEq K]
    (t : HashMapChangeTracker K V) (k : K) (v : V) : HashMapChangeTracker K V :=
  { inner := mapInsert t.inner k v, changed := true }

/-- HashMapChangeTracker::inner_if_changed (idle_job.rs 33-35): returns the
underlying map only if it was marked changed. -/
def HashMapChangeTracker.inner_if_changed {K V : Type}
    (t : HashMapChangeTracker K V) : Option (List (K × V)) :=
  if t.changed then some t.inner else none

/-- parse (idle_job.rs 100-108): attempt to deserialize a response payload into
a ProcMacroResult; a malformed payload yields none (logged and dropped). -/
def parseResult (response : RpcResponse) : Option ProcMacroResult :=
  match response.value with
  | .procMacroResult r => some r
  | _ => none

/-- Accumulator of the response loop of apply_proc_macro_server_responses
(idle_job.rs 52-78): the correlation table and the three trackers, plus the
result flag set on every drained response. -/
structure DrainAcc where
  requests : List (Nat × RequestParams)
  attr : HashMapChangeTracker ExpandAttributeParams ProcMacroResult
  deriv : HashMapChangeTracker ExpandDeriveParams ProcMacroResult
  inl : HashMapChangeTracker ExpandInlineMacroParams ProcMacroResult
  result : Bool
deriving DecidableEq, Repr

/-- The body of the response loop of apply_proc_macro_server_responses
(idle_job.rs 57-77) for one response: remove its id from the correlation table
(a missing entry is the todo-panic, modelled as none), and on successful parse
insert into the tracker selected by the removed entrys RequestParams kind; a
malformed payload is dropped (the entry stays removed, no insert). -/
def drainStep (acc : DrainAcc) (response : RpcResponse) : Option DrainAcc :=
  match (mapRemove acc.requests response.id).1,
        (mapRemove acc.requests response.id).2,
        parseResult response with
  | none, _, _ => none
  | some (RequestParams.Attribute params), reqs, some r =>
    some { acc with requests := reqs, attr := acc.attr.insert params r }
  | some (RequestParams.Attribute _), reqs, none =>
    some { acc with requests := reqs }
  | some (RequestParams.Derive params), reqs, some r =>
    some { acc with requests := reqs, deriv := acc.deriv.insert params r }
  | some (RequestParams.Derive _), reqs, none =>
    some { acc with requests := reqs }
  | some (RequestParams.Inline params), reqs, some r =>
    some { acc with requests := reqs, inl := acc.inl.insert params r }
  | some (RequestParams.Inline _), reqs, none =>
    some { acc with requests := reqs }

/-- The for-loop of apply_proc_macro_server_responses (idle_job.rs 55-78):
for each response in arrival order, set result true and run drainStep. -/
def drainLoop (acc : DrainAcc) : List RpcResponse → Option DrainAcc
  | [] => some acc
  | response :: rest =>
    match drainStep { acc with result := true } response with
    | none => none
    | some acc' => drainLoop acc' rest

/-- Initial accumulator of the drain (idle_job.rs 48-53): trackers wrap the
current resolution maps, the correlation table is the clients, result false. -/
def drainInit (db : AnalysisDatabase) (client : ProcMacroClient) : DrainAcc :=
  { requests := client.requests_params
    attr := HashMapChangeTracker.new db.attribute_macro_resolution
    deriv := HashMapChangeTracker.new db.derive_macro_resolution
    inl := HashMapChangeTracker.new db.inline_macro_resolution
    result := false }

/-- apply_proc_macro_server_responses (idle_job.rs 38-98): no-op returning
false unless the status is Ready; otherwise drains every buffered response
through drainLoop (none models the todo-panic on a response with no matching
request), writes back each resolution map only when its tracker reports
changed, and returns the result flag. The in-place mutation of the shared
client (entries removed from the correlation table, channel drained) is
reflected by storing the updated client back in the Ready status. -/
def apply_proc_macro_server_responses (db : AnalysisDatabase) :
    Option (AnalysisDatabase × Bool) :=
  match db.proc_macro_client_status with
  | ClientStatus.Ready client =>
    match drainLoop (drainInit db client) client.buffered_responses with
    | none => none
    | some acc =>
      let db :=
        match acc.attr.inner_if_changed with
        | some m => { db with attribute_macro_resolution := m }
        | none => db
      let db :=
        match acc.deriv.inner_if_changed with
        | some m => { db with derive_macro_resolution := m }
        | none => db
      let db :=
        match acc.inl.inner_if_changed with
        | some m => { db with inline_macro_resolution := m }
        | none => db
      let db := { db with proc_macro_client_status :=
        ClientStatus.Ready { requests_params := acc.requests, buffered_responses := [] } }
      some (db, acc.result)
  | _ => some (db, false)

/-- Observer for the write-back decision of apply_proc_macro_server_responses:
the changed flags of the three trackers at the end of the drain loop. A flag is
true exactly when inner_if_changed is some, i.e. exactly when the corresponding
set_..._resolution database write is performed (idle_job.rs 85-95). -/
def drainChangedFlags (db : AnalysisDatabase) : Option (Bool × Bool × Bool) :=
  match db.proc_macro_client_status with
  | ClientStatus.Ready client =>
    (drainLoop (drainInit db client) client.buffered_responses).map
      (fun acc => (acc.attr.changed, acc.deriv.changed, acc.inl.changed))
  | _ => some (false, false, false)

/-- PluginSuite (cairo_lang_semantic, external collaborator): the plugin
vector and the inline-macro-plugin map keyed by macro name. add_plugin_ex
pushes onto the vector; add_inline_macro_plugin_ex inserts name to plugin. -/
structure PluginSuite where
  plugins : List MacroPluginEntry
  inline_macro_plugins : List (String × InlinePluginEntry)
deriving DecidableEq, Repr

/-- proc_macro_plugin_suite (plugins/mod.rs 23-39): builds a suite holding one
ProcMacroPlugin carrying the attribute, derive and executable-attribute names,
and registers one shared InlineProcMacroPlugin instance (Arc::new, identified
by instanceTag) under every defined inline-macro name. -/
def proc_macro_plugin_suite (instanceTag : Nat) (defined : DefinedMacrosResponse) :
    PluginSuite :=
  { plugins := [MacroPluginEntry.proc
      { defined_attributes := defined.attributes
        defined_derives := defined.derives
        defined_executable_attributes := defined.executables }]
    inline_macro_plugins :=
      defined.inline_names.foldl
        (fun m name => mapInsert m name (InlinePluginEntry.proc instanceTag)) [] }

/-- ProcMacroClientController (client/controller.rs 17-20): the mailbox and the
u8 retries-left counter (represented as a Nat holding a value below 256). -/
structure ProcMacroClientController where
  status_change : ProcMacroClientStatusChange
  retries_left : Nat
deriving DecidableEq, Repr

/-- ProcMacroClientController::new (controller.rs 36-38): empty mailbox,
retries_left = 3. -/
def ProcMacroClientController.new : ProcMacroClientController :=
  { status_change := none, retries_left := 3 }

/-- ProcMacroClientController::should_initialize (controller.rs 40-45):
decrements retries_left, then retries iff the decremented value is nonzero.
The Rust counter is a u8 and the decrement is unchecked; the wrapping
subtraction models release-build behavior, and the third component records that
the decrement was entered with retries_left = 0, i.e. that it underflowed (a
debug build panics there). Returns (controller, retry?, underflowed?). -/
def ProcMacroClientController.should_init (c : ProcMacroClientController) :
    ProcMacroClientController × Bool × Bool :=
  let r := (c.retries_left + 255) % 256
  ({ c with retries_left := r }, r != 0, c.retries_left == 0)

/-- Config, restricted to the field this subsystem reads
(config.disable_proc_macros). -/
structure Config where
  disable_proc_macros : Bool
deriving DecidableEq, Repr

/-- The controller-side system state: the controller, the database, and
instrumentation fields that record observable history. attempts counts
bootstrap attempts (thread spawns performed by initialize); inflight counts
detached bootstrap threads that have not yet posted their event;
ever_ready_client records that a Ready event was consumed, publishing a client
handle into the database (after which background snapshot workers may hold it);
underflowed records that should_initialize was ever entered with
retries_left = 0; consumed counts mailbox events consumed by
maybe_update_state; plugin_tag is a fresh-allocation counter for
InlineProcMacroPlugin instances. -/
structure Sys where
  controller : ProcMacroClientController
  db : AnalysisDatabase
  attempts : Nat
  inflight : Nat
  ever_ready_client : Bool
  underflowed : Bool
  consumed : Nat
  plugin_tag : Nat
deriving DecidableEq, Repr

/-- A fresh client as constructed by ProcMacroClient::new (client/mod.rs
37-47): empty correlation table, nothing buffered. -/
def freshClient : ProcMacroClient :=
  { requests_params := [], buffered_responses := [] }

/-- ProcMacroClientController::initialize (controller.rs 60-98): no-op when
proc macros are disabled; otherwise, on spawn success (spawnOk, the outcome of
scarb.proc_macro_server()) creates a fresh client, sets the status to
Initializing and spawns the detached bootstrap thread (attempts and inflight
grow); on spawn failure posts FatalFailed to the mailbox. -/
def initialize_client (cfg : Config) (spawnOk : Bool) (s : Sys) : Sys :=
  if cfg.disable_proc_macros then s
  else if spawnOk then
    { s with
      db := { s.db with proc_macro_client_status := ClientStatus.Initializing }
      attempts := s.attempts + 1
      inflight := s.inflight + 1 }
  else
    { s with controller := { s.controller with
        status_change := s.controller.status_change.update ClientStatusChange.FatalFailed } }

/-- ProcMacroClientController::initialize_if_enabled_now (controller.rs 48-57):
initializes only when the current status is Disabled. -/
def initialize_if_enabled_now (cfg : Config) (spawnOk : Bool) (s : Sys) : Sys :=
  match s.db.proc_macro_client_status with
  | ClientStatus.Disabled => initialize_client cfg spawnOk s
  | _ => s

/-- ProcMacroClientController::update_state (controller.rs 116-150), consuming
one status-change event. Failed: should_initialize, then either re-initialize
or set InitializingFailed. FatalFailed: set InitializingFailed. Ready: build
the plugin suite from the defined macros, extend (merge into) the databases
macro-plugin vector and inline-macro-plugin map, and set the status to Ready
with the client. spawnOk is the spawn outcome of the initialize call a retry
performs. -/
def update_state (cfg : Config) (spawnOk : Bool) (s : Sys)
    (status : ClientStatusChange) : Sys :=
  match status with
  | ClientStatusChange.Failed =>
    let r := s.controller.should_init
    let s := { s with
      controller := r.1
      underflowed := s.underflowed || r.2.2 }
    if r.2.1 then initialize_client cfg spawnOk s
    else { s with db := { s.db with
      proc_macro_client_status := ClientStatus.InitializingFailed } }
  | ClientStatusChange.FatalFailed =>
    { s with db := { s.db with
        proc_macro_client_status := ClientStatus.InitializingFailed } }
  | ClientStatusChange.Ready defined client =>
    let suite := proc_macro_plugin_suite s.plugin_tag defined
    let plugins' := s.db.macro_plugins ++ suite.plugins
    let inline' := suite.inline_macro_plugins.foldl
      (fun m e => mapInsert m e.1 e.2) s.db.inline_macro_plugins
    { s with
      db := { s.db with
        macro_plugins := plugins'
        inline_macro_plugins := inline'
        proc_macro_client_status := ClientStatus.Ready client }
      ever_ready_client := true
      plugin_tag := s.plugin_tag + 1 }

/-- ProcMacroClientController::maybe_update_state (controller.rs 100-114):
takes the mailbox content (one changed() call, hence at most one event per
call), applies update_state to a taken event, then unconditionally runs
apply_proc_macro_server_responses; returns the new state and whether anything
changed (none models the drain panic). -/
def maybe_update_state (cfg : Config) (spawnOk : Bool) (s : Sys) :
    Option (Sys × Bool) :=
  let taken := s.controller.status_change.changed
  let s := { s with controller := { s.controller with status_change := taken.2 } }
  let step :=
    match taken.1 with
    | some e => ({ update_state cfg spawnOk s e with consumed := s.consumed + 1 }, true)
    | none => (s, false)
  match apply_proc_macro_server_responses step.1.db with
  | none => none
  | some r => some ({ step.1 with db := r.1 }, r.2 || step.2)

/-- Folds update_state (with successful spawns) over a list of consumed
status-change events: the sequence of events the controller consumes. -/
def run_events (cfg : Config) (events : List ClientStatusChange) (s : Sys) : Sys :=
  events.foldl (fun t e => update_state cfg true t e) s

/-- The empty analysis database: status Disabled, all maps and plugin
registrations empty (plus statically registered plugins where a theorem
supplies them). -/
def emptyDb : AnalysisDatabase :=
  { proc_macro_client_status := ClientStatus.Disabled
    attribute_macro_resolution := []
    derive_macro_resolution := []
    inline_macro_resolution := []
    macro_plugins := []
    inline_macro_plugins := [] }

/-- The initial system state: fresh controller (ProcMacroClientController::new)
over a database, with all instrumentation counters zero. -/
def initSys (db : AnalysisDatabase) : Sys :=
  { controller := ProcMacroClientController.new
    db := db
    attempts := 0
    inflight := 0
    ever_ready_client := false
    underflowed := false
    consumed := 0
    plugin_tag := 0 }

/-- One step of the surrounding system, as the scheduler and the spec describe
it. initNow: the post-sync hook calls initialize_if_enabled_now (spawnOk is the
outcome scarb.proc_macro_server() would have). consume: the scheduler drives
maybe_update_state. threadFail / threadReady: a detached bootstrap thread
finishes, posting Failed or Ready(defined, fresh client) to the mailbox
(controller.rs 79-92; fetch_defined_macros inserts nothing into the correlation
table, so the client it hands over is fresh). sendFail: modelled from the spec,
since cache_group.rs and the scheduler are not among the sources: expansion
requests are issued, on snapshot worker threads, through a client handle
published by a consumed Ready event, and a failing send posts Failed to the
mailbox (send_request_tracked, client/mod.rs 112-127); such a send can occur at
any time after a client handle was published, because background workers hold
point-in-time snapshots of the database. -/
inductive EnvAction where
  | initNow (spawnOk : Bool)
  | consume (spawnOk : Bool)
  | threadFail
  | threadReady (defined : DefinedMacrosResponse)
  | sendFail
deriving DecidableEq, Repr

/-- Executes one EnvAction; none when its guard does not hold (no thread in
flight, no published client handle) or when the drain panics. -/
def stepAction (cfg : Config) (s : Sys) : EnvAction → Option Sys
  | EnvAction.initNow spawnOk => some (initialize_if_enabled_now cfg spawnOk s)
  | EnvAction.consume spawnOk => (maybe_update_state cfg spawnOk s).map Prod.fst
  | EnvAction.threadFail =>
    if s.inflight > 0 then
      some { s with
        inflight := s.inflight - 1
        controller := { s.controller with
          status_change := s.controller.status_change.update ClientStatusChange.Failed } }
    else none
  | EnvAction.threadReady defined =>
    if s.inflight > 0 then
      some { s with
        inflight := s.inflight - 1
        controller := { s.controller with
          status_change := s.controller.status_change.update
            (ClientStatusChange.Ready defined freshClient) } }
    else none
  | EnvAction.sendFail =>
    if s.ever_ready_client then
      some { s with controller := { s.controller with
        status_change := s.controller.status_change.update ClientStatusChange.Failed } }
    else none

/-- Executes a list of EnvActions from a state; none as soon as one fails. -/
def runActions (cfg : Config) (s : Sys) : List EnvAction → Option Sys
  | [] => some s
  | a :: rest =>
    match stepAction cfg s a with
    | none => none
    | some s' => runActions cfg s' rest

/-- Configuration with proc macros enabled. -/
def cfg0 : Config := { disable_proc_macros := false }

/-- An empty defined-macros manifest. -/
def dm0 : DefinedMacrosResponse :=
  { attributes := [], derives := [], executables := [], inline_names := [] }

/-- The state right after the first initialize call of a fresh controller over
an empty database, with a successful spawn: one bootstrap attempt made. -/
def s0 : Sys := initialize_client cfg0 true (initSys emptyDb)

/-- A Ready client holding one in-flight attribute request (id 5) whose
response has arrived with a malformed payload. -/
def clMalformed : ProcMacroClient :=
  { requests_params := [(5, RequestParams.Attribute 1)]
    buffered_responses := [{ id := 5, value := JsonValue.malformed }] }

/-- Database whose status is Ready with clMalformed: one drainable response,
deserialization of which fails. -/
def dbMalformed : AnalysisDatabase :=
  { emptyDb with proc_macro_client_status := ClientStatus.Ready clMalformed }

/-- A Ready client holding one in-flight attribute request (id 7, params 1)
whose response has arrived carrying result 9. -/
def clReinsert : ProcMacroClient :=
  { requests_params := [(7, RequestParams.Attribute 1)]
    buffered_responses := [{ id := 7, value := JsonValue.procMacroResult 9 }] }

/-- Database already mapping params 1 to result 9 in the attribute resolution
map, about to drain a response re-inserting that same pair. -/
def dbReinsert : AnalysisDatabase :=
  { emptyDb with
    attribute_macro_resolution := [(1, 9)]
    proc_macro_client_status := ClientStatus.Ready clReinsert }

/-- Database with status Ready and no buffered responses (for the
zero-responses frame witness). -/
def dbIdle : AnalysisDatabase :=
  { emptyDb with proc_macro_client_status := ClientStatus.Ready freshClient }

/-- A Ready client with correlation table id 7 mapped to Attribute params 1 and
id 9 to Derive params 2, whose responses arrived out of order: 9 (result 20)
before 7 (result 10). -/
def clOutOfOrder : ProcMacroClient :=
  { requests_params := [(7, RequestParams.Attribute 1), (9, RequestParams.Derive 2)]
    buffered_responses := [{ id := 9, value := JsonValue.procMacroResult 20 },
                           { id := 7, value := JsonValue.procMacroResult 10 }] }

/-- Database about to drain the two out-of-order responses of clOutOfOrder. -/
def dbOutOfOrder : AnalysisDatabase :=
  { emptyDb with proc_macro_client_status := ClientStatus.Ready clOutOfOrder }

/-- Environment trace reaching InitializingFailed with a stale Failed event
pending: initialize (spawn ok); the bootstrap thread succeeds; the Ready event
is consumed (a client handle is published); a send through the published
handle fails, posting Failed; consuming it retries but the re-spawn fails,
posting FatalFailed; consuming that sets InitializingFailed (retries_left still
2); a second stale send failure posts another Failed. -/
def traceStaleFailed : List EnvAction :=
  [EnvAction.initNow true, EnvAction.threadReady dm0, EnvAction.consume true,
   EnvAction.sendFail, EnvAction.consume false, EnvAction.consume true,
   EnvAction.sendFail]

/-- Extension of traceStaleFailed that exhausts the retry budget and then
receives one more stale send-failure Failed event: the pending Failed is
consumed (retries 2 to 1, re-initialize); that attempts bootstrap thread
fails; consuming its Failed reaches retries 0, InitializingFailed; one more
stale send failure posts Failed while the counter is already 0. -/
def traceExhausted : List EnvAction :=
  traceStaleFailed ++
  [EnvAction.consume true, EnvAction.threadFail, EnvAction.consume true,
   EnvAction.sendFail]

theorem drainLoop_nil (acc : DrainAcc) : drainLoop acc [] = some acc := rfl

/-- drainStep leaves the result flag of the accumulator untouched. -/
theorem drainStep_result (acc acc' : DrainAcc) (r : RpcResponse)
    (h : drainStep acc r = some acc') : acc'.result = acc.result := by
  unfold drainStep at h
  split at h <;> (try cases h) <;> rfl

/-- The result flag of the drain loop is never cleared: once true, it stays
true through the rest of the loop. -/
theorem drainLoop_result_of_true :
    ∀ (rs : List RpcResponse) (acc acc' : DrainAcc), acc.result = true →
      drainLoop acc rs = some acc' → acc'.result = true := by
  intro rs
  induction rs with
  | nil =>
    intro acc acc' h he
    rw [drainLoop_nil] at he
    cases he
    exact h
  | cons r rest ih =>
    intro acc acc' h he
    unfold drainLoop at he
    cases hs : drainStep { acc with result := true } r with
    | none => rw [hs] at he; cases he
    | some acc1 =>
      rw [hs] at he
      exact ih acc1 acc' (drainStep_result _ _ _ hs) he

/-- The drain loop over a nonempty response list reports result true. -/
theorem drainLoop_result_of_cons :
    ∀ (r : RpcResponse) (rest : List RpcResponse) (acc acc' : DrainAcc),
      drainLoop acc (r :: rest) = some acc' → acc'.result = true := by
  intro r rest acc acc' he
  unfold drainLoop at he
  cases hs : drainStep { acc with result := true } r with
  | none => rw [hs] at he; cases he
  | some acc1 =>
    rw [hs] at he
    exact drainLoop_result_of_true rest acc1 acc' (drainStep_result _ _ _ hs) he

/-- mapGet after mapInsert: the inserted key is found; other keys are
unaffected. -/
theorem mapGet_mapInsert {K V : Type} [DecidableEq K]
    (m : List (K × V)) (k k' : K) (v : V) :
    mapGet (mapInsert m k' v) k = if k' = k then some v else mapGet m k := by
  induction m with
  | nil => by_cases h : k' = k <;> simp [mapInsert, mapGet, h]
  | cons e rest ih =>
    obtain ⟨ek, ev⟩ := e
    by_cases h1 : ek = k'
    · subst h1
      by_cases h2 : ek = k <;> simp [mapInsert, mapGet, h2]
    · by_cases h2 : k' = k
      · subst h2
        simp [mapInsert, mapGet, h1, ih]
      · by_cases h3 : ek = k
        · subst h3
          simp [mapInsert, mapGet, h1, h2]
        · simp [mapInsert, mapGet, h1, h3, ih, h2]

/-- Folding mapInsert over a list of bindings preserves the presence of every
key already in the map. -/
theorem mapGet_foldl_mapInsert_isSome {K V : Type} [DecidableEq K]
    (l : List (K × V)) :
    ∀ (m : List (K × V)) (k : K), (mapGet m k).isSome →
      (mapGet (l.foldl (fun acc e => mapInsert acc e.1 e.2) m) k).isSome := by
  induction l with
  | nil => intro m k h; exact h
  | cons e rest ih =>
    intro m k h
    refine ih (mapInsert m e.1 e.2) k ?_
    rw [mapGet_mapInsert]
    by_cases he : e.1 = k <;> simp [he, h]

/-- C1: the bootstrap call is meant to validate that the id it obtains is the
reserved first value (0, zero counting) and to proceed when additionally the
response id matches; the code instead bails exactly when the id IS the first
value: on a fresh client (nextId 0) with a perfectly matching response it
fails the first check, while with a non-first id 5 it succeeds, contradicting
both the claim and the functions own bail message. -/
theorem C1_bootstrap_first_id_check_inverted :
    fetch_defined_macros 0
        { sendOk := true, recvd := some { id := 0, value := JsonValue.definedMacros dm0 } }
      = Except.error "fetching defined macros should be first sended request"
    ∧ fetch_defined_macros 5
        { sendOk := true, recvd := some { id := 5, value := JsonValue.definedMacros dm0 } }
      = Except.ok dm0 :=
  ⟨rfl, rfl⟩

/-- C2 counterexample: with the retry budget of 3, the sequence of N = 3
Failed events followed by one Ready does not give N + 1 = 4 initialization
attempts: the third Failed reaches retries_left 0 and stops retrying, so only
3 attempts are ever made (the claimed bound N ≤ 3 is wrong; only N ≤ 2 works). -/
theorem C2_counterexample :
    ¬ ((run_events cfg0
          (List.replicate 3 ClientStatusChange.Failed ++
            [ClientStatusChange.Ready dm0 freshClient]) s0).attempts = 3 + 1) := by
  decide

/-- C2 amended: for every N ≤ 2 (strictly below the budget of 3), N Failed
events followed by one Ready end with status Ready and exactly N + 1
initialization attempts; moreover each consumed Failed event decrements the
u8 retries-left counter by exactly one, and the controller stops retrying
(sets InitializingFailed instead of re-initializing) exactly when the
decremented counter reaches zero. -/
theorem C2_amended :
    (∀ N : Nat, N ≤ 2 →
      (run_events cfg0
          (List.replicate N ClientStatusChange.Failed ++
            [ClientStatusChange.Ready dm0 freshClient]) s0).db.proc_macro_client_status
        = ClientStatus.Ready freshClient
      ∧ (run_events cfg0
          (List.replicate N ClientStatusChange.Failed ++
            [ClientStatusChange.Ready dm0 freshClient]) s0).attempts = N + 1)
    ∧ (∀ (s : Sys) (r : Nat), s.controller.retries_left = r + 1 → r + 1 ≤ 255 →
      (update_state cfg0 true s ClientStatusChange.Failed).controller.retries_left = r
      ∧ (r ≠ 0 →
          (update_state cfg0 true s ClientStatusChange.Failed).db.proc_macro_client_status
            = ClientStatus.Initializing
          ∧ (update_state cfg0 true s ClientStatusChange.Failed).attempts = s.attempts + 1)
      ∧ (r = 0 →
          (update_state cfg0 true s ClientStatusChange.Failed).db.proc_macro_client_status
            = ClientStatus.InitializingFailed
          ∧ (update_state cfg0 true s ClientStatusChange.Failed).attempts = s.attempts)) := by
  constructor
  · intro N hN
    interval_cases N <;> exact ⟨by decide, by decide⟩
  · intro s r h h255
    have hw : (s.controller.retries_left + 255) % 256 = r := by omega
    by_cases hr0 : r = 0
    · subst hr0
      refine ⟨?_, fun hc => absurd rfl hc, fun _ => ⟨?_, ?_⟩⟩ <;>
        simp [update_state, ProcMacroClientController.should_init, hw]
    · refine ⟨?_, fun _ => ⟨?_, ?_⟩, fun hc => absurd hc hr0⟩ <;>
        simp [update_state, ProcMacroClientController.should_init, hw, hr0,
          initialize_client, cfg0]

/-- C2 witness: instance of the amended claim at N = 2 and at a controller
state with retries_left = 3. -/
theorem C2_amended_witness :
    ((run_events cfg0
        (List.replicate 2 ClientStatusChange.Failed ++
          [ClientStatusChange.Ready dm0 freshClient]) s0).db.proc_macro_client_status
      = ClientStatus.Ready freshClient)
    ∧ (update_state cfg0 true s0 ClientStatusChange.Failed).controller.retries_left = 2 :=
  ⟨(C2_amended.1 2 (by decide)).1,
   (C2_amended.2 s0 2 (by decide) (by decide)).1⟩

/-- C9 counterexample: interval 10, constructed at instant 0, calls at
instants 0, 6 and 12: the calls at 6 and 12 are separated by 6 < 10, yet the
call at 12 executes the job (debouncing is measured from the last execution,
not from the previous call), contradicting the claim that for any two calls
separated by less than the interval the second is a no-op. -/
theorem C9_counterexample :
    (Debouncer.runCalls (Debouncer.new 10 0) [0, 6, 12]).2 = [true, false, true]
    ∧ (12 : Int) - 6 < 10 := by
  constructor
  · rfl
  · decide

/-- C9 amended: the first call after construction executes regardless of the
construction instant (given a monotone clock); and relative to a call that
executed the job, a later call strictly within the interval is a no-op with
last_run unchanged, while a later call at least the interval after it
executes. -/
theorem C9_amended :
    (∀ (time now0 now1 : Int), now0 ≤ now1 →
      ((Debouncer.new time now0).run_debounced now1).2 = true)
    ∧ (∀ (d : Debouncer) (t1 t2 : Int), (d.run_debounced t1).2 = true →
      (t2 - t1 < d.time →
        (d.run_debounced t1).1.run_debounced t2 = ((d.run_debounced t1).1, false))
      ∧ (d.time ≤ t2 - t1 →
        ((d.run_debounced t1).1.run_debounced t2).2 = true)) := by
  constructor
  · intro time now0 now1 h
    unfold Debouncer.new Debouncer.run_debounced
    dsimp only
    split
    · rfl
    · exfalso; omega
  · intro d t1 t2 hex
    by_cases hc : d.time ≤ t1 - d.last_run
    · have h1 : d.run_debounced t1 = ({ time := d.time, last_run := t1 }, true) := by
        unfold Debouncer.run_debounced
        rw [if_pos hc]
      rw [h1]
      constructor
      · intro hlt
        unfold Debouncer.run_debounced
        rw [if_neg (by dsimp only; omega)]
      · intro hge
        unfold Debouncer.run_debounced
        rw [if_pos (by dsimp only; omega)]
    · exfalso
      unfold Debouncer.run_debounced at hex
      rw [if_neg hc] at hex
      cases hex

/-- C9 witness: instance of the amended claim with interval 10, construction
at 0, first call at 0 (executes) and second call at 6 (no-op). -/
theorem C9_amended_witness :
    (((Debouncer.new 10 0).run_debounced 0).2 = true)
    ∧ ((Debouncer.new 10 0).run_debounced 0).1.run_debounced 6 =
        (((Debouncer.new 10 0).run_debounced 0).1, false) :=
  ⟨C9_amended.1 10 0 0 (by decide),
   (C9_amended.2 (Debouncer.new 10 0) 0 6 (by decide)).1 (by decide)⟩

/-- C3 counterexample: draining one response whose payload fails to
deserialize changes no resolution map (all three changed flags are false and
the database maps are untouched), yet apply_proc_macro_server_responses
returns true, because the result flag is set for every drained response
regardless of parsing; the claimed equivalence with "some map changed" is
false. -/
theorem C3_counterexample :
    apply_proc_macro_server_responses dbMalformed =
      some ({ dbMalformed with
               proc_macro_client_status := ClientStatus.Ready freshClient }, true)
    ∧ drainChangedFlags dbMalformed = some (false, false, false) :=
  ⟨rfl, rfl⟩

/-- C3 amended: apply_proc_macro_server_responses (when it completes without
the missing-correlation panic) returns true iff at least one response was
drained, i.e. iff the status is Ready and the inbound buffer is nonempty; in
particular draining only malformed payloads still returns true, and any map
change implies a drained response, so "some map changed" implies true but not
conversely. -/
theorem C3_amended :
    ∀ (db db' : AnalysisDatabase) (r : Bool),
      apply_proc_macro_server_responses db = some (db', r) →
      (r = true ↔ ∃ c, db.proc_macro_client_status = ClientStatus.Ready c
        ∧ c.buffered_responses ≠ []) := by
  intro db db' r h
  unfold apply_proc_macro_server_responses at h
  cases hst : db.proc_macro_client_status with
  | Ready c =>
    rw [hst] at h
    dsimp only at h
    cases hb : c.buffered_responses with
    | nil =>
      rw [hb, drainLoop_nil] at h
      injection h with h1
      injection h1 with h2 h3
      constructor
      · intro hr
        rw [← h3] at hr
        exact absurd hr (by simp [drainInit, HashMapChangeTracker.new])
      · rintro ⟨c', hc', hne⟩
        injection hc' with hcc
        rw [← hcc] at hne
        exact absurd hb hne
    | cons x xs =>
      rw [hb] at h
      cases hd : drainLoop (drainInit db c) (x :: xs) with
      | none => rw [hd] at h; cases h
      | some acc =>
        rw [hd] at h
        injection h with h1
        injection h1 with h2 h3
        have hres : acc.result = true := drainLoop_result_of_cons x xs _ _ hd
        constructor
        · intro _
          exact ⟨c, rfl, by rw [hb]; exact List.cons_ne_nil x xs⟩
        · intro _
          rw [← h3, hres]
  | Disabled =>
    rw [hst] at h
    dsimp only at h
    injection h with h1
    injection h1 with h2 h3
    constructor
    · intro hr
      rw [← h3] at hr
      exact absurd hr (by decide)
    · rintro ⟨c', hc', _⟩
      cases hc'
  | Initializing =>
    rw [hst] at h
    dsimp only at h
    injection h with h1
    injection h1 with h2 h3
    constructor
    · intro hr
      rw [← h3] at hr
      exact absurd hr (by decide)
    · rintro ⟨c', hc', _⟩
      cases hc'
  | InitializingFailed =>
    rw [hst] at h
    dsimp only at h
    injection h with h1
    injection h1 with h2 h3
    constructor
    · intro hr
      rw [← h3] at hr
      exact absurd hr (by decide)
    · rintro ⟨c', hc', _⟩
      cases hc'

/-- C3 witness: instance of the amended claim at the malformed-payload
database: the drain returned true and indeed a response was buffered. -/
theorem C3_amended_witness :
    (true = true ↔ ∃ c, dbMalformed.proc_macro_client_status = ClientStatus.Ready c
      ∧ c.buffered_responses ≠ []) :=
  C3_amended dbMalformed
    ({ dbMalformed with proc_macro_client_status := ClientStatus.Ready freshClient })
    true rfl

/-- C4 counterexample: the attribute map of dbReinsert already maps params 1
to result 9, and the drained response re-inserts exactly that pair; no entry
changes value (the resulting map equals the original), yet the attribute
tracker reports changed (HashMapChangeTracker::insert sets the flag
unconditionally), so set_attribute_macro_resolution is invoked and the map is
written back to the incremental database, contradicting the claim. -/
theorem C4_counterexample :
    drainChangedFlags dbReinsert = some (true, false, false)
    ∧ apply_proc_macro_server_responses dbReinsert =
        some ({ dbReinsert with
                 proc_macro_client_status := ClientStatus.Ready freshClient }, true)
    ∧ ({ dbReinsert with
          proc_macro_client_status :=
            ClientStatus.Ready freshClient }).attribute_macro_resolution
        = dbReinsert.attribute_macro_resolution :=
  ⟨rfl, rfl, rfl⟩

/-- C4 amended: a resolution map is written back exactly when a successfully
parsed response of its kind was drained (an insert happened), regardless of
whether the inserted pair equals the entry already present. Draining zero new
responses performs no write and leaves the database entirely unchanged,
reporting unchanged; draining one well-formed attribute response writes back
the attribute map (tracker flag true) and no other map, with the new map being
mapInsert of the old, even when that insert re-establishes an equal entry. -/
theorem C4_amended :
    (∀ (db : AnalysisDatabase) (client : ProcMacroClient),
      db.proc_macro_client_status = ClientStatus.Ready client →
      client.buffered_responses = [] →
      apply_proc_macro_server_responses db = some (db, false))
    ∧ (∀ (db : AnalysisDatabase) (rid p v : Nat) (rest : List (Nat × RequestParams)),
      db.proc_macro_client_status = ClientStatus.Ready
        { requests_params := (rid, RequestParams.Attribute p) :: rest
          buffered_responses := [{ id := rid, value := JsonValue.procMacroResult v }] } →
      drainChangedFlags db = some (true, false, false)
      ∧ apply_proc_macro_server_responses db = some
          ({ db with
             attribute_macro_resolution := mapInsert db.attribute_macro_resolution p v
             proc_macro_client_status := ClientStatus.Ready
               { requests_params := rest, buffered_responses := [] } }, true)) := by
  constructor
  · rintro db ⟨reqs, resps⟩ hst hresp
    dsimp only at hresp
    subst hresp
    unfold apply_proc_macro_server_responses
    rw [hst]
    show some ({ db with proc_macro_client_status :=
          ClientStatus.Ready { requests_params := reqs, buffered_responses := [] } },
        false)
      = some (db, false)
    rw [← hst]
  · intro db rid p v rest hst
    constructor
    · unfold drainChangedFlags
      rw [hst]
      dsimp only
      unfold drainLoop drainStep
      simp [mapRemove, parseResult, drainInit, HashMapChangeTracker.new,
        HashMapChangeTracker.insert, drainLoop_nil]
    · unfold apply_proc_macro_server_responses
      rw [hst]
      dsimp only
      unfold drainLoop drainStep
      simp [mapRemove, parseResult, drainInit, HashMapChangeTracker.new,
        HashMapChangeTracker.insert, HashMapChangeTracker.inner_if_changed,
        drainLoop_nil]

/-- C4 witness: instance of the amended claim at a Ready database with no
buffered responses (frame part) and at the equal-re-insert database
(write-back part). -/
theorem C4_amended_witness :
    apply_proc_macro_server_responses dbIdle = some (dbIdle, false)
    ∧ drainChangedFlags dbReinsert = some (true, false, false) :=
  ⟨C4_amended.1 dbIdle freshClient rfl rfl,
   (C4_amended.2 dbReinsert 7 1 9 [] rfl).1⟩

/-- C8: with the correlation table mapping id 7 to Attribute params 1 and id 9
to Derive params 2, and the responses arriving out of order (9 carrying result
20, then 7 carrying result 10), the drain classifies by the correlation table:
the attribute map gains the entry for id 7s params (1 maps to 10), the derive
map gains the entry for id 9s params (2 maps to 20), both entries are removed
from the correlation table (the Ready client keeps an empty table), the
attribute and derive changed flags are true, the inline flag is false, and the
inline map is untouched. -/
theorem C8_out_of_order_classification :
    apply_proc_macro_server_responses dbOutOfOrder =
      some ({ dbOutOfOrder with
               attribute_macro_resolution := [(1, 10)]
               derive_macro_resolution := [(2, 20)]
               proc_macro_client_status := ClientStatus.Ready freshClient }, true)
    ∧ drainChangedFlags dbOutOfOrder = some (true, true, false)
    ∧ ({ dbOutOfOrder with
          attribute_macro_resolution := [(1, 10)]
          derive_macro_resolution := [(2, 20)]
          proc_macro_client_status :=
            ClientStatus.Ready freshClient }).inline_macro_resolution
        = dbOutOfOrder.inline_macro_resolution :=
  ⟨rfl, rfl, rfl⟩

/-- A database holding one statically registered macro plugin and one
statically registered inline plugin. -/
def dbStatic : AnalysisDatabase :=
  { emptyDb with
    macro_plugins := [MacroPluginEntry.static 0]
    inline_macro_plugins := [("st", InlinePluginEntry.static 0)] }

/-- System state over dbStatic with a fresh controller. -/
def sysStatic : Sys := initSys dbStatic

/-- A defined-macros manifest declaring one attribute and one inline macro. -/
def dmFoo : DefinedMacrosResponse :=
  { attributes := ["attr1"], derives := [], executables := [], inline_names := ["foo"] }

theorem update_state_ready_macro_plugins (cfg : Config) (ok : Bool) (s : Sys)
    (dm : DefinedMacrosResponse) (c : ProcMacroClient) :
    (update_state cfg ok s (ClientStatusChange.Ready dm c)).db.macro_plugins
      = s.db.macro_plugins ++ (proc_macro_plugin_suite s.plugin_tag dm).plugins := rfl

theorem update_state_ready_inline_plugins (cfg : Config) (ok : Bool) (s : Sys)
    (dm : DefinedMacrosResponse) (c : ProcMacroClient) :
    (update_state cfg ok s (ClientStatusChange.Ready dm c)).db.inline_macro_plugins
      = (proc_macro_plugin_suite s.plugin_tag dm).inline_macro_plugins.foldl
          (fun m e => mapInsert m e.1 e.2) s.db.inline_macro_plugins := rfl

/-- C5: a Ready(defined_macros, client) transition merges the derived plugin
suite into the existing registrations: the macro-plugin vector is extended
(never replaced), so after a second Ready transition every macro plugin
present after the first transition — including every statically registered
plugin — is still present; likewise every inline-macro name registered after
the first transition (or statically) is still a key of the inline-plugin map
after the second. -/
theorem C5_ready_transition_merges_plugins :
    ∀ (cfg : Config) (ok : Bool) (s : Sys) (dm1 dm2 : DefinedMacrosResponse)
      (c1 c2 : ProcMacroClient),
      (∀ p, p ∈ s.db.macro_plugins →
        p ∈ (update_state cfg ok s (ClientStatusChange.Ready dm1 c1)).db.macro_plugins)
      ∧ (∀ p,
          p ∈ (update_state cfg ok s (ClientStatusChange.Ready dm1 c1)).db.macro_plugins →
          p ∈ (update_state cfg ok
                (update_state cfg ok s (ClientStatusChange.Ready dm1 c1))
                (ClientStatusChange.Ready dm2 c2)).db.macro_plugins)
      ∧ (∀ name, (mapGet s.db.inline_macro_plugins name).isSome →
          (mapGet (update_state cfg ok s
            (ClientStatusChange.Ready dm1 c1)).db.inline_macro_plugins name).isSome)
      ∧ (∀ name,
          (mapGet (update_state cfg ok s
            (ClientStatusChange.Ready dm1 c1)).db.inline_macro_plugins name).isSome →
          (mapGet (update_state cfg ok
            (update_state cfg ok s (ClientStatusChange.Ready dm1 c1))
            (ClientStatusChange.Ready dm2 c2)).db.inline_macro_plugins name).isSome) := by
  intro cfg ok s dm1 dm2 c1 c2
  refine ⟨?_, ?_, ?_, ?_⟩
  · rw [update_state_ready_macro_plugins]
    exact fun p hp => List.mem_append_left _ hp
  · rw [update_state_ready_macro_plugins cfg ok
      (update_state cfg ok s (ClientStatusChange.Ready dm1 c1)) dm2 c2]
    exact fun p hp => List.mem_append_left _ hp
  · rw [update_state_ready_inline_plugins]
    exact fun name h => mapGet_foldl_mapInsert_isSome _ _ _ h
  · rw [update_state_ready_inline_plugins cfg ok
      (update_state cfg ok s (ClientStatusChange.Ready dm1 c1)) dm2 c2]
    exact fun name h => mapGet_foldl_mapInsert_isSome _ _ _ h

/-- C5 witness: over a database with a static plugin registration, after a
first Ready transition registering attribute attr1 and inline macro foo and a
second Ready transition with an empty manifest, the ProcMacroPlugin from the
first transition is still in the macro-plugin vector, foo is still a key of
the inline-plugin map, and the static registrations survive both merges. -/
theorem C5_merge_witness :
    (MacroPluginEntry.proc
        { defined_attributes := ["attr1"], defined_derives := []
          defined_executable_attributes := [] })
      ∈ (update_state cfg0 true
          (update_state cfg0 true sysStatic (ClientStatusChange.Ready dmFoo freshClient))
          (ClientStatusChange.Ready dm0 freshClient)).db.macro_plugins
    ∧ (mapGet (update_state cfg0 true
          (update_state cfg0 true sysStatic (ClientStatusChange.Ready dmFoo freshClient))
          (ClientStatusChange.Ready dm0 freshClient)).db.inline_macro_plugins "foo").isSome
    ∧ (mapGet (update_state cfg0 true
          (update_state cfg0 true sysStatic (ClientStatusChange.Ready dmFoo freshClient))
          (ClientStatusChange.Ready dm0 freshClient)).db.inline_macro_plugins "st").isSome :=
  ⟨(C5_ready_transition_merges_plugins cfg0 true sysStatic dmFoo dm0
      freshClient freshClient).2.1 _ (by decide),
   (C5_ready_transition_merges_plugins cfg0 true sysStatic dmFoo dm0
      freshClient freshClient).2.2.2 "foo" (by decide),
   (C5_ready_transition_merges_plugins cfg0 true sysStatic dmFoo dm0
      freshClient freshClient).2.2.2 "st" (by decide)⟩

/-- C6: consuming FatalFailed does set InitializingFailed immediately, but
InitializingFailed is not terminal in the code: update_state never checks the
current status, so a stale Failed event — posted by a failing request send
through a client handle still held by a background snapshot worker — consumed
while the status is InitializingFailed re-attempts initialization (attempts
grows from 1 to 2) and moves the status back to Initializing, contradicting
the claimed terminality. The first conjunct exhibits the reachable
InitializingFailed state with the stale event pending; the second shows the
next drive escaping it. -/
theorem C6_initializing_failed_not_terminal :
    (runActions cfg0 (initSys emptyDb) traceStaleFailed).map
        (fun s => (s.db.proc_macro_client_status, s.attempts,
          s.controller.status_change)) =
      some (ClientStatus.InitializingFailed, 1, some ClientStatusChange.Failed)
    ∧ (runActions cfg0 (initSys emptyDb) (traceStaleFailed ++ [EnvAction.consume true])).map
        (fun s => (s.db.proc_macro_client_status, s.attempts)) =
      some (ClientStatus.Initializing, 2) :=
  ⟨rfl, rfl⟩

/-- C7: the status mailbox is last-write-wins and maybe_update_state delivers
at most one event per call: after update(A) then update(B), the first
changed() yields B (A is discarded) and the second changed() yields nothing;
and one maybe_update_state call consumes exactly one event when the mailbox is
occupied and zero otherwise. -/
theorem C7_mailbox_last_write_wins_single_delivery :
    (∀ (m : ProcMacroClientStatusChange) (a b : ClientStatusChange),
      ((m.update a).update b).changed = (some b, none)
      ∧ (((m.update a).update b).changed.2).changed = (none, none))
    ∧ (∀ (cfg : Config) (ok : Bool) (s : Sys) (out : Sys × Bool),
      maybe_update_state cfg ok s = some out →
      out.1.consumed = s.consumed +
        (if s.controller.status_change.isSome then 1 else 0)) := by
  constructor
  · intro m a b
    exact ⟨rfl, rfl⟩
  · intro cfg ok s out h
    unfold maybe_update_state ProcMacroClientStatusChange.changed at h
    dsimp only at h
    cases hm : s.controller.status_change with
    | none =>
      rw [hm] at h
      dsimp only at h
      cases happ : apply_proc_macro_server_responses
          { s with controller := { s.controller with status_change := none } }.db with
      | none => rw [happ] at h; cases h
      | some r =>
        rw [happ] at h
        injection h with h1
        rw [← h1]
        simp
    | some e =>
      rw [hm] at h
      dsimp only at h
      cases happ : apply_proc_macro_server_responses
          (update_state cfg ok
            { s with controller := { s.controller with status_change := none } } e).db with
      | none => rw [happ] at h; cases h
      | some r =>
        rw [happ] at h
        injection h with h1
        rw [← h1]
        simp

/-- C7 witness: instance of the single-delivery bound at the initial system
state, whose mailbox is empty and whose drain is a no-op. -/
theorem C7_mailbox_witness :
    (initSys emptyDb, false).1.consumed = (initSys emptyDb).consumed +
      (if (initSys emptyDb).controller.status_change.isSome then 1 else 0) :=
  C7_mailbox_last_write_wins_single_delivery.2 cfg0 true (initSys emptyDb)
    (initSys emptyDb, false) rfl

/-- C10: the unchecked u8 decrement in should_initialize can underflow: after
the retry budget is exhausted (retries_left 0, status InitializingFailed), a
stale Failed event posted by a failing request send through a still-held
client handle is consumed by the next drive, entering should_initialize with
retries_left = 0 — the decrement underflows (wrapping to 255 in release
builds, a panic in debug builds) and even re-enables retries. The first
conjunct exhibits the reachable exhausted state with the stale Failed pending;
the second shows consuming it: the underflow flag is set and the counter wraps
to 255. -/
theorem C10_retry_counter_underflow :
    (runActions cfg0 (initSys emptyDb) traceExhausted).map
        (fun s => (s.controller.retries_left, s.underflowed,
          s.db.proc_macro_client_status, s.controller.status_change)) =
      some (0, false, ClientStatus.InitializingFailed, some ClientStatusChange.Failed)
    ∧ (runActions cfg0 (initSys emptyDb) (traceExhausted ++ [EnvAction.consume true])).map
        (fun s => (s.controller.retries_left, s.underflowed)) =
      some (255, true) :=
  ⟨rfl, rfl⟩

end CairoLS
